import Mathlib

/-!
Shallow embedding of the DevCoach backend scoring and coaching services
(src/backend/services/scoring_service.py and coaching_service.py).

Python dictionaries with optional keys are modelled as records of `Option`
fields: a `none` field is a missing (or `null`) key, and the Python
`item.get(key, default)` idiom becomes `Option.getD`.  Python floats are
modelled as rationals (`ℚ`); all score arithmetic in the source is on
short decimal literals, so the rational model is exact.  Python's
`sorted(items, key=..., reverse=True)` — a stable sort, descending by
key — is modelled by Mathlib's stable `List.insertionSort` under the
relation "score of the left argument is at least the score of the right".
All functions here are total, which models the source's freedom from
exceptions on typed inputs.
-/

namespace DevCoach

/-- A queue item (a `dict[str, Any]` in the source) restricted to the keys
the scoring service reads.  `none` models a missing or `null` key. -/
structure QueueItem where
  story_points : Option Int
  priority : Option String
  user_commented : Option Bool
  is_assigned_to_user : Option Bool
  awaiting_review_from_user : Option Bool
deriving DecidableEq, Repr

/-- Python's `str.lower()` as a character-wise ASCII lowering (the priority
strings the service compares against are all ASCII). -/
def lower (s : String) : String := ⟨s.data.map Char.toLower⟩

/-- The `_SP_TIER_MAP` table from scoring_service.py. -/
def SP_TIER_MAP : List (Int × Int) := [(1, 1), (2, 2), (3, 2), (5, 3), (8, 4), (13, 5)]

/-- The loop `for threshold, tier in _SP_TIER_MAP: if sp <= threshold: return
tier` of `story_points_to_tier`, with the trailing `return 5`. -/
def tierLoop (sp : Int) : List (Int × Int) → Int
  | [] => 5
  | (threshold, tier) :: rest => if sp ≤ threshold then tier else tierLoop sp rest

/-- The function `story_points_to_tier` from scoring_service.py. -/
def story_points_to_tier : Option Int → Int
  | none => 3
  | some sp => if sp ≤ 0 then 3 else tierLoop sp SP_TIER_MAP

/-- The effective priority string: `(item.get("priority") or "").lower()`. -/
def effectivePriority (item : QueueItem) : String :=
  lower (item.priority.getD "")

/-- The `familiarity_bonus` local of `confidence_score`. -/
def familiarity_bonus (item : QueueItem) : ℚ :=
  if item.user_commented.getD false then 3/2
  else if item.is_assigned_to_user.getD false then 13/10
  else 1

/-- The `urgency_multiplier` local of `confidence_score`. -/
def urgency_multiplier (item : QueueItem) : ℚ :=
  if effectivePriority item = "critical" ∨ effectivePriority item = "blocker" then 2
  else if effectivePriority item = "high" then 3/2
  else if item.awaiting_review_from_user.getD false then 13/10
  else 1

/-- The function `confidence_score` from scoring_service.py:
`(1.0 / tier) * familiarity_bonus * urgency_multiplier`. -/
def confidence_score (item : QueueItem) (github_username : String) : ℚ :=
  (1 / (story_points_to_tier item.story_points : ℚ)) *
    familiarity_bonus item * urgency_multiplier item

/-- The function `_build_explanation` from scoring_service.py.  The `reasons`
list is built by the same sequence of appends as the source, then joined. -/
def build_explanation (item : QueueItem) (github_username : String) : String :=
  let reasons : List String :=
    (if effectivePriority item = "critical" ∨ effectivePriority item = "blocker" then
        ["marked as critical/blocker"]
      else if effectivePriority item = "high" then ["high priority"]
      else [])
    ++ (if item.awaiting_review_from_user.getD false then
          ["your review has been requested"] else [])
    ++ (if item.is_assigned_to_user.getD false then ["assigned to you"] else [])
    ++ (if item.user_commented.getD false then
          ["you have prior context from a comment"] else [])
    ++ (match item.story_points with
        | none => []
        | some sp =>
          if story_points_to_tier (some sp) ≤ 2 then
            ["small scope (" ++ toString sp ++ " SP — good for a focused session)"]
          else if 4 ≤ story_points_to_tier (some sp) then
            ["larger scope (" ++ toString sp ++ " SP — plan accordingly)"]
          else [])
  let reasons :=
    if reasons = [] then ["good fit based on difficulty tier and queue position"]
    else reasons
  "Recommended because: " ++ String.intercalate "; " reasons ++ "."

/-- The sort key relation of `sorted(items, key=confidence_score,
reverse=True)`: `a` may come before `b` when `a`'s score is at least `b`'s. -/
def scoreGE (github_username : String) (a b : QueueItem) : Prop :=
  confidence_score b github_username ≤ confidence_score a github_username

instance (u : String) : DecidableRel (scoreGE u) :=
  fun a b => inferInstanceAs (Decidable (_ ≤ _))

/-- The function `sort_queue_math_test` from scoring_service.py: a stable sort
of a copy of `items`, descending by `confidence_score`. -/
def sort_queue_math_test (items : List QueueItem) (github_username : String) :
    List QueueItem :=
  items.insertionSort (scoreGE github_username)

/-- Python's `round(x, 4)`: round to four decimal places, ties to even
(banker's rounding, as Python's `round` does). -/
def round4 (q : ℚ) : ℚ :=
  let scaled := q * 10000
  let f := ⌊scaled⌋
  let n : Int :=
    if scaled - f < 1/2 then f
    else if scaled - f > 1/2 then f + 1
    else if f % 2 = 0 then f else f + 1
  (n : ℚ) / 10000

/-- The enriched dictionary `dict(item)` + `"score"` + `"explanation"` built by
`recommend_top_three`: a fresh copy of the item with two extra fields. -/
structure EnrichedItem where
  base : QueueItem
  score : ℚ
  explanation : String
deriving DecidableEq, Repr

/-- The function `recommend_top_three` from scoring_service.py. -/
def recommend_top_three (items : List QueueItem) (github_username : String) :
    List EnrichedItem :=
  let sorted_items := sort_queue_math_test items github_username
  let top := sorted_items.take 3
  top.map fun item =>
    ⟨item, round4 (confidence_score item github_username),
      build_explanation item github_username⟩

/-- The activity metrics record read by `detect_coaching_level`
(coaching_service.py); `none` is a missing or `null` key. -/
structure Activity where
  prs_merged_7d : Option Int
  prs_reviewed_7d : Option Int
  annotation_rate : Option ℚ
deriving DecidableEq, Repr

/-- The function `detect_coaching_level` from coaching_service.py.  The Python
idiom `activity.get("annotation_rate") or 0.0` maps both a missing key and
`0.0` to `0.0`, which is `Option.getD 0` on rationals. -/
def detect_coaching_level (activity : Activity) : String :=
  let prs_merged := activity.prs_merged_7d.getD 0
  let prs_reviewed := activity.prs_reviewed_7d.getD 0
  let annotation_rate := activity.annotation_rate.getD 0
  if prs_merged ≥ 3 ∧ prs_reviewed ≥ 5 ∧ annotation_rate ≥ 8/10 then "peter"
  else "ransom"

/-- The function `should_prompt` from coaching_service.py. -/
def should_prompt (level : String) (last_activity_minutes : Int) (phase : String) :
    Bool :=
  if level = "peter" then
    decide ((phase = "coding" ∨ phase = "debugging" ∨ phase = "review") ∧
      last_activity_minutes > 15)
  else if last_activity_minutes = 0 then true
  else decide (last_activity_minutes > 0 ∧ last_activity_minutes % 25 = 0)

/-! Field-update helpers, used to state claims that vary one key of an item
while keeping the others. -/

/-- Replace only the `priority` field of an item. -/
def setPriority (item : QueueItem) (p : Option String) : QueueItem :=
  ⟨item.story_points, p, item.user_commented, item.is_assigned_to_user,
    item.awaiting_review_from_user⟩

/-- Replace only the `user_commented` field of an item. -/
def setCommented (item : QueueItem) (b : Option Bool) : QueueItem :=
  ⟨item.story_points, item.priority, b, item.is_assigned_to_user,
    item.awaiting_review_from_user⟩

/-- Replace only the `is_assigned_to_user` field of an item. -/
def setAssigned (item : QueueItem) (b : Option Bool) : QueueItem :=
  ⟨item.story_points, item.priority, item.user_commented, b,
    item.awaiting_review_from_user⟩

/-- Replace only the `awaiting_review_from_user` field of an item. -/
def setAwaiting (item : QueueItem) (b : Option Bool) : QueueItem :=
  ⟨item.story_points, item.priority, item.user_commented,
    item.is_assigned_to_user, b⟩

/-- The explanation format as the specification states it: the applicable
reason phrases in the spec's fixed order, the scope phrases gated on the
difficulty tier alone, joined by `"; "` and wrapped in the
`"Recommended because: "` ... `"."` frame. -/
def explanation_spec (item : QueueItem) (github_username : String) : String :=
  let tier := story_points_to_tier item.story_points
  let reasons : List String :=
    (if effectivePriority item = "critical" ∨ effectivePriority item = "blocker" then
        ["marked as critical/blocker"]
      else if effectivePriority item = "high" then ["high priority"]
      else [])
    ++ (if item.awaiting_review_from_user.getD false then
          ["your review has been requested"] else [])
    ++ (if item.is_assigned_to_user.getD false then ["assigned to you"] else [])
    ++ (if item.user_commented.getD false then
          ["you have prior context from a comment"] else [])
    ++ (if tier ≤ 2 then
          ["small scope (" ++ toString (item.story_points.getD 0) ++
            " SP — good for a focused session)"]
        else if 4 ≤ tier then
          ["larger scope (" ++ toString (item.story_points.getD 0) ++
            " SP — plan accordingly)"]
        else [])
  let reasons :=
    if reasons = [] then ["good fit based on difficulty tier and queue position"]
    else reasons
  "Recommended because: " ++ String.intercalate "; " reasons ++ "."

end DevCoach

namespace DevCoach

theorem lower_empty : lower "" = "" := by decide

theorem lower_critical : lower "critical" = "critical" := by decide

theorem tier_ge_one (sp : Option Int) : 1 ≤ story_points_to_tier sp := by
  cases sp with
  | none => norm_num [story_points_to_tier]
  | some s =>
    simp only [story_points_to_tier, SP_TIER_MAP, tierLoop]
    split_ifs <;> norm_num

theorem tier_le_five (sp : Option Int) : story_points_to_tier sp ≤ 5 := by
  cases sp with
  | none => norm_num [story_points_to_tier]
  | some s =>
    simp only [story_points_to_tier, SP_TIER_MAP, tierLoop]
    split_ifs <;> norm_num

theorem tier_cast_pos (sp : Option Int) : (0 : ℚ) < (story_points_to_tier sp : ℚ) := by
  have h := tier_ge_one sp
  exact_mod_cast lt_of_lt_of_le Int.zero_lt_one h

theorem familiarity_bonus_bounds (item : QueueItem) :
    1 ≤ familiarity_bonus item ∧ familiarity_bonus item ≤ 3/2 := by
  unfold familiarity_bonus
  split_ifs <;> norm_num

theorem urgency_multiplier_bounds (item : QueueItem) :
    1 ≤ urgency_multiplier item ∧ urgency_multiplier item ≤ 2 := by
  unfold urgency_multiplier
  split_ifs <;> norm_num

theorem confidence_score_pos (item : QueueItem) (u : String) :
    0 < confidence_score item u := by
  have ht := tier_cast_pos item.story_points
  have hf := familiarity_bonus_bounds item
  have hu := urgency_multiplier_bounds item
  have h1 : 0 < 1 / (story_points_to_tier item.story_points : ℚ) := by positivity
  exact mul_pos (mul_pos h1 (lt_of_lt_of_le zero_lt_one hf.1))
    (lt_of_lt_of_le zero_lt_one hu.1)

theorem confidence_score_le_three (item : QueueItem) (u : String) :
    confidence_score item u ≤ 3 := by
  have ht := tier_cast_pos item.story_points
  have h1 := tier_ge_one item.story_points
  have hf := familiarity_bonus_bounds item
  have hu := urgency_multiplier_bounds item
  have h1t : 1 / (story_points_to_tier item.story_points : ℚ) ≤ 1 := by
    rw [div_le_one ht]
    exact_mod_cast h1
  unfold confidence_score
  calc (1 / (story_points_to_tier item.story_points : ℚ)) *
      familiarity_bonus item * urgency_multiplier item
      ≤ 1 * (3/2) * 2 := by
        apply mul_le_mul _ hu.2 (le_trans zero_le_one hu.1) (by norm_num)
        exact mul_le_mul h1t hf.2 (le_trans zero_le_one hf.1) (by norm_num)
    _ = 3 := by norm_num

end DevCoach

namespace DevCoach

theorem urgency_setPriority_critical (item : QueueItem) :
    urgency_multiplier (setPriority item (some "critical")) = 2 := by
  simp [urgency_multiplier, effectivePriority, setPriority, lower_critical]

theorem urgency_none_awaiting (item : QueueItem) :
    urgency_multiplier (setPriority (setAwaiting item (some true)) none) = 13/10 := by
  simp [urgency_multiplier, effectivePriority, setPriority, setAwaiting, lower_empty]

theorem tierLoop_eq_find (s : Int) (l : List (Int × Int)) :
    tierLoop s l = ((l.find? fun p => decide (s ≤ p.1)).map Prod.snd).getD 5 := by
  induction l with
  | nil => rfl
  | cons hd tl ih =>
    obtain ⟨t, r⟩ := hd
    by_cases h : s ≤ t
    · simp [tierLoop, List.find?_cons, h]
    · simp [tierLoop, List.find?_cons, h, ih]

/-- C1: `confidence_score` is the product `(1 / tier) * familiarity_bonus *
urgency_multiplier` with the stated precedence: commented beats assigned
(an item with both gets bonus 3/2), and a critical priority beats an awaited
review (an item with priority "critical" and an awaited review scores strictly
more than the same item with only the awaited review). -/
theorem claim_C1 (item : QueueItem) (u : String) :
    confidence_score item u =
      (1 / (story_points_to_tier item.story_points : ℚ)) *
        (if item.user_commented.getD false then 3/2
          else if item.is_assigned_to_user.getD false then 13/10 else 1) *
        (if lower (item.priority.getD "") = "critical" ∨
            lower (item.priority.getD "") = "blocker" then 2
          else if lower (item.priority.getD "") = "high" then 3/2
          else if item.awaiting_review_from_user.getD false then 13/10 else 1) ∧
    confidence_score (setCommented (setAssigned item (some true)) (some true)) u =
      (1 / (story_points_to_tier item.story_points : ℚ)) * (3/2) *
        urgency_multiplier item ∧
    confidence_score (setPriority (setAwaiting item (some true)) (some "critical")) u >
      confidence_score (setPriority (setAwaiting item (some true)) none) u := by
  refine ⟨rfl, ?_, ?_⟩
  · simp [confidence_score, familiarity_bonus, urgency_multiplier, effectivePriority,
      setCommented, setAssigned]
  · have ht := tier_cast_pos item.story_points
    have hf := familiarity_bonus_bounds item
    have hP : 0 < (1 / (story_points_to_tier item.story_points : ℚ)) *
        familiarity_bonus item := by
      have h1 : 0 < 1 / (story_points_to_tier item.story_points : ℚ) := by positivity
      exact mul_pos h1 (lt_of_lt_of_le zero_lt_one hf.1)
    have hA : confidence_score
        (setPriority (setAwaiting item (some true)) (some "critical")) u =
        (1 / (story_points_to_tier item.story_points : ℚ)) * familiarity_bonus item * 2 := by
      rw [confidence_score, urgency_setPriority_critical]
      rfl
    have hB : confidence_score (setPriority (setAwaiting item (some true)) none) u =
        (1 / (story_points_to_tier item.story_points : ℚ)) * familiarity_bonus item *
          (13/10) := by
      rw [confidence_score, urgency_none_awaiting]
      rfl
    rw [hA, hB]
    exact mul_lt_mul_of_pos_left (by norm_num) hP

/-- C2: `story_points_to_tier` is total, sends `null` and every non-positive
value to tier 3, otherwise returns the tier of the first table threshold at or
above the story points (5 above the table), matches the boundary table, and
always lands in `[1, 5]`. -/
theorem claim_C2 (sp : Option Int) (s : Int) :
    story_points_to_tier none = 3 ∧
    (s ≤ 0 → story_points_to_tier (some s) = 3) ∧
    (0 < s → story_points_to_tier (some s) =
      ((SP_TIER_MAP.find? fun p => decide (s ≤ p.1)).map Prod.snd).getD 5) ∧
    (13 < s → story_points_to_tier (some s) = 5) ∧
    (1 ≤ story_points_to_tier sp ∧ story_points_to_tier sp ≤ 5) ∧
    (story_points_to_tier (some 1) = 1 ∧ story_points_to_tier (some 2) = 2 ∧
      story_points_to_tier (some 3) = 2 ∧ story_points_to_tier (some 4) = 3 ∧
      story_points_to_tier (some 5) = 3 ∧ story_points_to_tier (some 7) = 4 ∧
      story_points_to_tier (some 8) = 4 ∧ story_points_to_tier (some 13) = 5 ∧
      story_points_to_tier (some 100) = 5) := by
  refine ⟨rfl, ?_, ?_, ?_, ⟨tier_ge_one sp, tier_le_five sp⟩, by decide⟩
  · intro h
    simp [story_points_to_tier, h]
  · intro h
    rw [story_points_to_tier, if_neg (by omega)]
    exact tierLoop_eq_find s SP_TIER_MAP
  · intro h
    simp only [story_points_to_tier, SP_TIER_MAP, tierLoop]
    split_ifs <;> omega

theorem claim_C2_witness :
    story_points_to_tier (some (-7)) = 3 ∧
    story_points_to_tier (some 4) =
      ((SP_TIER_MAP.find? fun p => decide ((4:Int) ≤ p.1)).map Prod.snd).getD 5 ∧
    story_points_to_tier (some 50) = 5 :=
  ⟨(claim_C2 none (-7)).2.1 (by norm_num),
    (claim_C2 none 4).2.2.1 (by norm_num),
    (claim_C2 none 50).2.2.2.1 (by norm_num)⟩

/-- C7: every confidence score is strictly positive and at most 3, and the
maximum 3 is attained at a 1-SP critical item the user commented on. -/
theorem claim_C7 (item : QueueItem) (u : String) :
    0 < confidence_score item u ∧ confidence_score item u ≤ 3 ∧
    confidence_score ⟨some 1, some "critical", some true, none, none⟩ u = 3 := by
  refine ⟨confidence_score_pos item u, confidence_score_le_three item u, ?_⟩
  simp [confidence_score, familiarity_bonus, urgency_multiplier, effectivePriority, story_points_to_tier, SP_TIER_MAP, tierLoop, lower_critical]

end DevCoach

namespace DevCoach

/-- C5: with level "peter", `should_prompt` fires exactly during an active
phase (coding, debugging, review) after more than 15 idle minutes; with level
"ransom" it fires exactly at a phase transition (0 idle minutes) or on a
positive multiple of 25 idle minutes, whatever the phase. -/
theorem ransom_ne_peter : ¬ (("ransom" : String) = "peter") := by decide

theorem claim_C5 (phase : String) (m : Int) :
    (should_prompt "peter" m phase = true ↔
      (phase = "coding" ∨ phase = "debugging" ∨ phase = "review") ∧ 15 < m) ∧
    (should_prompt "ransom" m phase = true ↔ m = 0 ∨ (0 < m ∧ m % 25 = 0)) ∧
    should_prompt "peter" 16 "coding" = true ∧
    should_prompt "peter" 15 "coding" = false ∧
    should_prompt "peter" 20 "planning" = false ∧
    should_prompt "ransom" 0 phase = true ∧
    should_prompt "ransom" 25 phase = true ∧
    should_prompt "ransom" 24 phase = false := by
  refine ⟨?_, ?_, by decide, by decide, by decide, ?_, ?_, ?_⟩
  · simp [should_prompt]
  · by_cases h : m = 0 <;> simp [should_prompt, h]
  · simp [should_prompt]
  · simp [should_prompt, ransom_ne_peter]
  · simp [should_prompt, ransom_ne_peter]

theorem claim_C5_witness :
    should_prompt "peter" 30 "review" = true ∧
    should_prompt "ransom" 50 "planning" = true :=
  ⟨(claim_C5 "review" 30).1.mpr (by decide),
    (claim_C5 "planning" 50).2.1.mpr (by norm_num)⟩

/-- C6: `detect_coaching_level` answers "peter" exactly when all three
thresholds hold — at least 3 PRs merged, at least 5 PRs reviewed, and an
annotation rate of at least 0.8 — and "ransom" otherwise; the boundary input
(3, 5, 0.8) is "peter" and lowering any one metric gives "ransom". -/
theorem claim_C6 (a : Activity) (m r : Int) (ar : ℚ) :
    (detect_coaching_level ⟨some m, some r, some ar⟩ = "peter" ↔
      3 ≤ m ∧ 5 ≤ r ∧ 8/10 ≤ ar) ∧
    (detect_coaching_level a = "peter" ∨ detect_coaching_level a = "ransom") ∧
    detect_coaching_level ⟨some 3, some 5, some (8/10)⟩ = "peter" ∧
    detect_coaching_level ⟨some 2, some 5, some (8/10)⟩ = "ransom" ∧
    detect_coaching_level ⟨some 3, some 4, some (8/10)⟩ = "ransom" ∧
    detect_coaching_level ⟨some 3, some 5, some (79/100)⟩ = "ransom" := by
  refine ⟨?_, ?_, ?_, ?_, ?_, ?_⟩
  · by_cases h : 3 ≤ m ∧ 5 ≤ r ∧ 8/10 ≤ ar <;>
      simp [detect_coaching_level, h]
  · by_cases h : 3 ≤ a.prs_merged_7d.getD 0 ∧ 5 ≤ a.prs_reviewed_7d.getD 0 ∧
        8/10 ≤ a.annotation_rate.getD 0 <;> simp [detect_coaching_level, h]
  · norm_num [detect_coaching_level]
  · norm_num [detect_coaching_level]
  · norm_num [detect_coaching_level]
  · norm_num [detect_coaching_level]

theorem claim_C6_witness :
    detect_coaching_level ⟨some 10, some 9, some 1⟩ = "peter" :=
  (claim_C6 ⟨none, none, none⟩ 10 9 1).1.mpr (by norm_num)

/-- C10: the `github_username` argument has no influence on any result of the
scoring engine — scores, the sorted queue, and the enriched recommendations
are identical under any two usernames. -/
theorem claim_C10 (item : QueueItem) (items : List QueueItem) (u1 u2 : String) :
    confidence_score item u1 = confidence_score item u2 ∧
    sort_queue_math_test items u1 = sort_queue_math_test items u2 ∧
    recommend_top_three items u1 = recommend_top_three items u2 :=
  ⟨rfl, rfl, rfl⟩

end DevCoach

namespace DevCoach

/-- C3: `sort_queue_math_test` returns a permutation of its input, ordered by
`confidence_score` descending, and is stable: for every score value the items
attaining it appear in their original relative order.  The embedding is pure,
so the input list itself is untouched. -/
theorem claim_C3 (items : List QueueItem) (u : String) :
    List.Perm (sort_queue_math_test items u) items ∧
    (sort_queue_math_test items u).Pairwise
      (fun a b => confidence_score b u ≤ confidence_score a u) ∧
    ∀ v : ℚ, (sort_queue_math_test items u).filter
        (fun i => decide (confidence_score i u = v)) =
      items.filter fun i => decide (confidence_score i u = v) := by
  refine ⟨List.perm_insertionSort _ _, ?_, ?_⟩
  · haveI : IsTotal QueueItem (scoreGE u) :=
      ⟨fun a b => le_total (confidence_score b u) (confidence_score a u)⟩
    haveI : IsTrans QueueItem (scoreGE u) :=
      ⟨fun _ _ _ hab hbc => le_trans hbc hab⟩
    exact List.sorted_insertionSort (scoreGE u) items
  · intro v
    have hpair : (items.filter fun i => decide (confidence_score i u = v)).Pairwise
        (scoreGE u) := by
      apply List.pairwise_of_forall_mem_list
      intro a ha b hb
      have h1 := List.of_mem_filter ha
      have h2 := List.of_mem_filter hb
      simp only [decide_eq_true_eq] at h1 h2
      unfold scoreGE
      rw [h1, h2]
    have hsub : List.Sublist (items.filter fun i => decide (confidence_score i u = v))
        (sort_queue_math_test items u) :=
      List.sublist_insertionSort hpair (List.filter_sublist items)
    have hsub2 : List.Sublist (items.filter fun i => decide (confidence_score i u = v))
        ((sort_queue_math_test items u).filter
          fun i => decide (confidence_score i u = v)) := by
      have h3 := hsub.filter fun i => decide (confidence_score i u = v)
      simpa [List.filter_filter] using h3
    have hlen : ((sort_queue_math_test items u).filter
          (fun i => decide (confidence_score i u = v))).length =
        (items.filter fun i => decide (confidence_score i u = v)).length :=
      ((List.perm_insertionSort (scoreGE u) items).filter _).length_eq
    exact (hsub2.eq_of_length hlen.symm).symm

end DevCoach

namespace DevCoach

theorem lower_normal : lower "normal" = "normal" := by decide

theorem build_explanation_eq_spec (item : QueueItem) (u : String) :
    build_explanation item u = explanation_spec item u := by
  cases h : item.story_points <;>
    simp [build_explanation, explanation_spec, h, story_points_to_tier]

/-- C4: `recommend_top_three` is exactly the first `min(3, len(items))`
elements of the stable descending sort, each enriched with the score rounded
to four decimals and the explanation string; the explanation agrees with the
spec's fixed-order reason list (`explanation_spec`). -/
theorem claim_C4 (items : List QueueItem) (u : String) :
    recommend_top_three items u =
      ((sort_queue_math_test items u).take 3).map
        (fun item => ⟨item, round4 (confidence_score item u),
          build_explanation item u⟩) ∧
    (recommend_top_three items u).length = min 3 items.length ∧
    recommend_top_three [] u = [] ∧
    ∀ item2 : QueueItem, build_explanation item2 u = explanation_spec item2 u := by
  refine ⟨rfl, ?_, rfl, fun item2 => build_explanation_eq_spec item2 u⟩
  simp [recommend_top_three, sort_queue_math_test, List.length_take,
    List.length_insertionSort]

/-- C8: the scoring core is total on records with missing fields — every field
is defaulted (missing story points give tier 3, a missing priority behaves
like "normal", missing booleans behave like false), the empty record scores
1/3, and a bare 13-SP record scores 1/5. -/
theorem claim_C8 (item : QueueItem) (u : String) :
    confidence_score ⟨none, none, none, none, none⟩ u = 1/3 ∧
    confidence_score ⟨some 13, none, none, none, none⟩ u = 1/5 ∧
    (item.story_points = none → story_points_to_tier item.story_points = 3) ∧
    (item.priority = none →
      urgency_multiplier item = urgency_multiplier (setPriority item (some "normal"))) ∧
    (item.user_commented = none →
      confidence_score item u = confidence_score (setCommented item (some false)) u) ∧
    (item.is_assigned_to_user = none →
      confidence_score item u = confidence_score (setAssigned item (some false)) u) ∧
    (item.awaiting_review_from_user = none →
      confidence_score item u = confidence_score (setAwaiting item (some false)) u) := by
  obtain ⟨sp, pr, uc, ia, ar⟩ := item
  refine ⟨?_, ?_, ?_, ?_, ?_, ?_, ?_⟩
  · norm_num [confidence_score, familiarity_bonus, urgency_multiplier,
      effectivePriority, story_points_to_tier, lower_empty]
    simp
  · norm_num [confidence_score, familiarity_bonus, urgency_multiplier,
      effectivePriority, story_points_to_tier, SP_TIER_MAP, tierLoop, lower_empty]
    simp
  · intro h
    simp only at h
    subst h
    rfl
  · intro h
    simp only at h
    subst h
    simp [urgency_multiplier, effectivePriority, setPriority, lower_empty, lower_normal]
  · intro h
    simp only at h
    subst h
    rfl
  · intro h
    simp only at h
    subst h
    rfl
  · intro h
    simp only at h
    subst h
    rfl

theorem claim_C8_witness :
    confidence_score ⟨none, none, none, none, none⟩ "octocat" = 1/3 ∧
    urgency_multiplier ⟨none, none, none, none, none⟩ =
      urgency_multiplier (setPriority ⟨none, none, none, none, none⟩ (some "normal")) ∧
    confidence_score ⟨none, none, none, none, none⟩ "octocat" =
      confidence_score (setCommented ⟨none, none, none, none, none⟩ (some false))
        "octocat" :=
  ⟨(claim_C8 ⟨none, none, none, none, none⟩ "octocat").1,
    (claim_C8 ⟨none, none, none, none, none⟩ "octocat").2.2.2.1 rfl,
    (claim_C8 ⟨none, none, none, none, none⟩ "octocat").2.2.2.2.1 rfl⟩

/-- C9: `recommend_top_three` never mutates its input — the embedding is pure
and the returned elements are fresh `EnrichedItem` copies whose bases are
exactly the selected input items (a sub-permutation of the input), with the
extra fields living only on the copies. -/
theorem claim_C9 (items : List QueueItem) (u : String) :
    (recommend_top_three items u).map EnrichedItem.base =
      (sort_queue_math_test items u).take 3 ∧
    List.Subperm ((recommend_top_three items u).map EnrichedItem.base) items := by
  have hmap : (recommend_top_three items u).map EnrichedItem.base =
      (sort_queue_math_test items u).take 3 := by
    simp only [recommend_top_three, List.map_map]
    exact List.map_id _
  refine ⟨hmap, ?_⟩
  rw [hmap]
  exact ((List.take_sublist 3 _).subperm).trans
    (List.perm_insertionSort (scoreGE u) items).subperm

end DevCoach
